import Mathlib

/-!
Verification of the Agrello contract-analysis backend.

The development shallowly embeds the three Python functions the claims are
about:

* `analyze_contract_text` (backend/gpt_analyzer.py) — the LLM transport is
  abstracted as an `LLMOutcome` value (the call either raises an
  `openai.APIError`, raises some other exception, or returns a reply whose
  primary choice's message content is a string), and `json.loads` is
  abstracted as an oracle `parse : String → Option Json` supplied by the
  environment.  Python values that can flow out of `json.loads` are modelled
  by the inductive type `Json`; the function's summary component has type
  `Json` because the code performs no type validation on the
  `simplified_contract` field it extracts.
* `extract_text_from_pdf` (backend/pdf_processor.py) — the PyPDF2 reader is
  abstracted as a `PdfDoc`: either parsing raises (`PdfReadError` or any
  other exception, both mapped to `parseFail`) or it yields a list of pages,
  each page's `extract_text()` returning `None` or a string
  (`Option String`).
* `analyze_contract_endpoint` (backend/main.py) — the HTTP handler; an
  `HTTPException` raise is modelled as the `httpError` response constructor.
-/

namespace Agrello

/-- Python values produced by `json.loads`.  Numbers are modelled as `Int`;
the fractional part of a JSON number is irrelevant to every claim (only
"is this value a string / a list" is ever inspected). -/
inductive Json where
  | null
  | bool (b : Bool)
  | num (n : Int)
  | str (s : String)
  | arr (items : List Json)
  | obj (fields : List (String × Json))

/-- Python's `isinstance(v, str)` on a decoded JSON value. -/
def Json.isStr : Json → Bool
  | .str _ => true
  | _ => false

/-- Outcome of the single `openai.ChatCompletion.acreate` transport call,
together with the extraction of `response.choices[0].message.content`:
the call raises `openai.APIError`, raises some other exception, or
succeeds with a string content. -/
inductive LLMOutcome where
  | apiError (msg : String)
  | otherError (msg : String)
  | reply (content : String)

/-- The ASCII whitespace characters stripped by Python's `str.strip()`.
(CPython also strips some rarer control and Unicode space characters; the
claims only ever need the subset below, which is sound: every character
here is stripped by CPython.) -/
def isPyWhitespace (c : Char) : Bool :=
  c = ' ' || c = '\t' || c = '\n' || c = '\r' || c = '\x0b' || c = '\x0c'

/-- Python's `not s.strip()`: true iff `s` is empty or whitespace-only
(stated over the string's character list). -/
def pyBlank (s : String) : Bool :=
  s.data.all isPyWhitespace

/-- Python's `dict.get(k, default)` on a decoded JSON object.  `json.loads` produces
dicts, whose keys are unique, so the first-match convention of
`List.lookup` is immaterial. -/
def jsonGet (fields : List (String × Json)) (k : String) (default : Json) : Json :=
  match fields.lookup k with
  | some v => v
  | none => default

/-- Python's `all(isinstance(item, str) for item in items)`, returning the strings
when the check passes. -/
def asStrList : List Json → Option (List String)
  | [] => some []
  | .str s :: rest => (asStrList rest).map (s :: ·)
  | _ => none

/-- Python's `isinstance(cons, list) and all(isinstance(item, str) for item in cons)`,
returning the list of strings when the check passes. -/
def asStrListJ : Json → Option (List String)
  | .arr items => asStrList items
  | _ => none

def emptyTextMsg : String := "The provided contract text is empty."
def summaryDefault : String := "Could not extract simplified contract."
def consFormatMsg : String :=
  "GPT response for cons was not in the expected format (list of strings)."
def parseFailHead : String := "Failed to parse GPT response as JSON. The raw response was: "
def apiErrorHead : String := "OpenAI API Error: "
def unexpectedErrorHead : String := "An unexpected error occurred during analysis: "
def unexpectedStructureMsg : String := "Unexpected response structure from GPT."

/-- The `cons`-validation step of `analyze_contract_text`: keep `cons` when
it is a list of strings, otherwise replace it with the fixed one-element
explanatory list. -/
def validateCons (j : Json) : List String :=
  match asStrListJ j with
  | some ss => ss
  | none => [consFormatMsg]

/-- Embedding of `backend/gpt_analyzer.py: analyze_contract_text`.

`parse` is the `json.loads` oracle (`none` = `json.JSONDecodeError`),
`outcome` the result of the transport call.  A reply that decodes to a
non-dict value makes `analysis_result.get` raise `AttributeError`, caught
by the dedicated handler ("Unexpected response structure from GPT.").
The summary component is a `Json` value: the code returns the decoded
`simplified_contract` field without checking that it is a string. -/
def analyze_contract_text (parse : String → Option Json) (outcome : LLMOutcome)
    (contract_text : String) (model : String) : Json × List String :=
  if pyBlank contract_text then
    (.str emptyTextMsg, [])
  else
    match outcome with
    | .apiError e => (.str (apiErrorHead ++ e), [])
    | .otherError e => (.str (unexpectedErrorHead ++ e), [])
    | .reply content =>
      match parse content with
      | none => (.str (parseFailHead ++ content), [])
      | some (.obj fields) =>
          let simplified_contract := jsonGet fields "simplified_contract" (.str summaryDefault)
          let cons := jsonGet fields "cons" (.arr [])
          (simplified_contract, validateCons cons)
      | some _ => (.str unexpectedStructureMsg, [])

/-- The PyPDF2 view of the uploaded bytes: either `PdfReader` (or the
per-page extraction) raises — `PdfReadError` for malformed/encrypted input
or any other exception, both mapped to `parseFail` — or the document has a
list of pages whose `extract_text()` each return `None` or a string. -/
inductive PdfDoc where
  | parseFail
  | ok (pages : List (Option String))

/-- Embedding of `backend/pdf_processor.py: extract_text_from_pdf`.
Concatenates `page.extract_text() or ""` over the pages in order; returns
`""` when parsing raises. -/
def extract_text_from_pdf : PdfDoc → String
  | .parseFail => ""
  | .ok pages => pages.foldl (fun text p => text ++ p.getD "") ""

/-- An upload as the endpoint sees it: the declared filename (as a list of
characters, so that `lower().endswith(".pdf")` is `List.isSuffixOf` after
`List.map Char.toLower`), the declared content type, and the saved bytes
abstracted as a `PdfDoc`. -/
structure UploadFile where
  filename : List Char
  content_type : String
  doc : PdfDoc

/-- The per-request environment of the endpoint: the `json.loads` oracle and
transport outcome consumed by `analyze_contract_text`, and whether saving
the upload to a temporary file raised (`some msg`). -/
structure AnalyzeEnv where
  parse : String → Option Json
  outcome : LLMOutcome
  saveError : Option String

/-- The endpoint's observable result: a raised `HTTPException` with a status
code and detail string, or the 200 JSON body
`{original_filename, simplified_contract, cons}`. -/
inductive HttpResponse where
  | httpError (status : Nat) (detail : String)
  | ok (original_filename : List Char) (simplified_contract : Json) (cons : List String)

def invalidFileTypeMsg : String := "Invalid file type. Only PDF files are accepted."
def invalidContentTypeMsg : String := "Invalid file content type. Expected application/pdf."
def saveFailHead : String := "Failed to save or read uploaded PDF: "
def noTextMsg : String :=
  "Could not extract text from the PDF. It might be empty, image-based, or corrupted."
def analysisFailedMsg : String := "Contract analysis failed to produce a result."

/-- The check `file.filename.lower().endswith(".pdf")`. -/
def valid_filename (name : List Char) : Bool :=
  List.isSuffixOf ".pdf".toList (name.map Char.toLower)

/-- The test `simplified_contract is None` on the decoded value. -/
def jsonIsNone : Json → Bool
  | .null => true
  | _ => false

/-- The test `cons is None`: `analyze_contract_text` returns a value of Python list
type for `cons` on every path, and a list is never `None`, so this test is
constantly false. -/
def consIsNone (cons : List String) : Bool :=
  false

/-- Embedding of `backend/main.py: analyze_contract_endpoint`.

The temporary-file bookkeeping (`tempfile`/`shutil`/`os.unlink`) only moves
the bytes around and is abstracted into `env.saveError` / `file.doc`; the
`except EnvironmentError` / `except Exception` arms around the analysis
call are unreachable in the embedding because `analyze_contract_text`
is total over its modelled outcomes. -/
def analyze_contract_endpoint (env : AnalyzeEnv) (file : UploadFile) : HttpResponse :=
  if !valid_filename file.filename then
    .httpError 400 invalidFileTypeMsg
  else if !(file.content_type == "application/pdf") then
    .httpError 400 invalidContentTypeMsg
  else
    match env.saveError with
    | some e => .httpError 500 (saveFailHead ++ e)
    | none =>
      let extracted_text := extract_text_from_pdf file.doc
      if pyBlank extracted_text then
        .httpError 422 noTextMsg
      else
        let result := analyze_contract_text env.parse env.outcome extracted_text "gpt-3.5-turbo"
        if jsonIsNone result.1 && consIsNone result.2 then
          .httpError 500 analysisFailedMsg
        else
          .ok file.filename result.1 result.2

/-! ## Claims about `analyze_contract_text` -/

/-- C2: for every input text that is empty or whitespace-only,
`analyze_contract_text` returns the fixed informational summary
"The provided contract text is empty." and an empty cons list; the result
is the same for every `json.loads` oracle and every transport outcome,
i.e. it does not depend on the LLM transport. -/
theorem analyze_empty_input (parse : String → Option Json) (outcome : LLMOutcome)
    (text model : String) (h : pyBlank text = true) :
    analyze_contract_text parse outcome text model = (.str emptyTextMsg, []) := by
  simp [analyze_contract_text, h]

theorem analyze_empty_input_witness :
    pyBlank " \t\n" = true ∧
    analyze_contract_text (fun _ => none) (.apiError "down") " \t\n" "gpt-4"
      = (.str emptyTextMsg, []) :=
  ⟨by decide, analyze_empty_input (fun _ => none) (.apiError "down") " \t\n" "gpt-4" (by decide)⟩

/-- C3: when the transport call raises a service-level error
(`openai.APIError`) with description `e`, `analyze_contract_text` catches
it and returns the summary `"OpenAI API Error: " ++ e` — a string
containing the error's description — with an empty cons list; being a
total function of the outcome, it does not re-raise. -/
theorem analyze_api_error (parse : String → Option Json) (e text model : String)
    (h : pyBlank text = false) :
    analyze_contract_text parse (.apiError e) text model
      = (.str (apiErrorHead ++ e), []) := by
  simp [analyze_contract_text, h]

theorem analyze_api_error_witness :
    pyBlank "some contract" = false ∧
    analyze_contract_text (fun _ => none) (.apiError "rate limit") "some contract" "gpt-4"
      = (.str (apiErrorHead ++ "rate limit"), []) :=
  ⟨by decide, analyze_api_error (fun _ => none) "rate limit" "some contract" "gpt-4" (by decide)⟩

/-- C4: when the transport reply's content is not valid JSON
(`json.loads` raises `JSONDecodeError`), `analyze_contract_text` returns
the summary `"Failed to parse GPT response as JSON. The raw response was: "
++ content` — which embeds the raw unparsed content verbatim — with an
empty cons list. -/
theorem analyze_json_parse_failure (parse : String → Option Json)
    (content text model : String)
    (h : pyBlank text = false) (hp : parse content = none) :
    analyze_contract_text parse (.reply content) text model
      = (.str (parseFailHead ++ content), []) := by
  simp [analyze_contract_text, h, hp]

theorem analyze_json_parse_failure_witness :
    pyBlank "some contract" = false ∧
    (fun (_ : String) => (none : Option Json)) "not json" = none ∧
    analyze_contract_text (fun _ => none) (.reply "not json") "some contract" "gpt-4"
      = (.str (parseFailHead ++ "not json"), []) :=
  ⟨by decide, rfl,
    analyze_json_parse_failure (fun _ => none) "not json" "some contract" "gpt-4"
      (by decide) rfl⟩

/-- C5: when the reply decodes to a JSON object whose `cons` field is
present but is not a list of strings (not a list at all, or a list with a
non-string element), `analyze_contract_text` returns as cons exactly the
one-element list holding the fixed explanatory message. -/
theorem analyze_bad_cons_field (parse : String → Option Json)
    (content text model : String) (fields : List (String × Json)) (j : Json)
    (h : pyBlank text = false) (hp : parse content = some (.obj fields))
    (hc : fields.lookup "cons" = some j) (hbad : asStrListJ j = none) :
    (analyze_contract_text parse (.reply content) text model).2 = [consFormatMsg] := by
  simp [analyze_contract_text, h, hp, jsonGet, hc, validateCons, hbad]

theorem analyze_bad_cons_field_witness :
    pyBlank "some contract" = false ∧
    asStrListJ (.str "just one con") = none ∧
    (analyze_contract_text
        (fun _ => some (.obj [("simplified_contract", .str "S"), ("cons", .str "just one con")]))
        (.reply "r") "some contract" "gpt-4").2 = [consFormatMsg] :=
  ⟨by decide, rfl,
    analyze_bad_cons_field
      (fun _ => some (.obj [("simplified_contract", .str "S"), ("cons", .str "just one con")]))
      "r" "some contract" "gpt-4"
      [("simplified_contract", .str "S"), ("cons", .str "just one con")]
      (.str "just one con") (by decide) rfl rfl rfl⟩

/-- C6: when the reply decodes to a JSON object with a string
`simplified_contract` field and a `cons` field that is a list whose
elements are all strings, `analyze_contract_text` returns exactly those
two values unmodified. -/
theorem analyze_wellformed_reply (parse : String → Option Json)
    (content text model s : String) (fields : List (String × Json))
    (items : List Json) (ss : List String)
    (h : pyBlank text = false) (hp : parse content = some (.obj fields))
    (h1 : fields.lookup "simplified_contract" = some (.str s))
    (h2 : fields.lookup "cons" = some (.arr items))
    (h3 : asStrList items = some ss) :
    analyze_contract_text parse (.reply content) text model = (.str s, ss) := by
  simp [analyze_contract_text, h, hp, jsonGet, h1, h2, validateCons, asStrListJ, h3]

theorem analyze_wellformed_reply_witness :
    pyBlank "some contract" = false ∧
    analyze_contract_text
        (fun _ => some (.obj [("simplified_contract", .str "plain summary"),
                              ("cons", .arr [.str "clause 1", .str "clause 2"])]))
        (.reply "r") "some contract" "gpt-4"
      = (.str "plain summary", ["clause 1", "clause 2"]) :=
  ⟨by decide,
    analyze_wellformed_reply
      (fun _ => some (.obj [("simplified_contract", .str "plain summary"),
                            ("cons", .arr [.str "clause 1", .str "clause 2"])]))
      "r" "some contract" "gpt-4" "plain summary"
      [("simplified_contract", .str "plain summary"),
       ("cons", .arr [.str "clause 1", .str "clause 2"])]
      [.str "clause 1", .str "clause 2"] ["clause 1", "clause 2"]
      (by decide) rfl rfl rfl rfl⟩

/-- A `json.loads` oracle whose reply is a JSON object carrying a number,
not a string, in the `simplified_contract` field. -/
def numberSummaryParse : String → Option Json := fun _ =>
  some (.obj [("simplified_contract", .num 5), ("cons", .arr [])])

/-- C1 counterexample: the claim says the returned summary is a string on
every execution path, but on the reply `{"simplified_contract": 5,
"cons": []}` the code returns the decoded number `5` itself as the
summary — `simplified_contract` is read with `dict.get` and never
type-checked, so `isinstance(summary, str)` is false here. -/
theorem analyze_nonstring_summary :
    (analyze_contract_text numberSummaryParse (.reply "r") "some contract" "gpt-4").1
        = Json.num 5 ∧
    ((analyze_contract_text numberSummaryParse (.reply "r") "some contract" "gpt-4").1).isStr
        = false :=
  ⟨rfl, rfl⟩

/-- C1 amended: `analyze_contract_text` is a total function of the modelled
LLM-side conditions — every path yields a `(summary, cons)` pair in which
`cons` is a list of strings (by construction, so the `(None, None)`
sentinel of the docstring is never produced and nothing is raised) — and
the summary is a string on every path except that a decoded reply object's
`simplified_contract` field is passed through unmodified, whatever JSON
value it holds. -/
theorem analyze_total_shape (parse : String → Option Json) (outcome : LLMOutcome)
    (text model : String) :
    (analyze_contract_text parse outcome text model).1.isStr = true ∨
    (∃ content fields, outcome = .reply content ∧ parse content = some (.obj fields) ∧
      (analyze_contract_text parse outcome text model).1
        = jsonGet fields "simplified_contract" (.str summaryDefault)) := by
  by_cases h : pyBlank text = true
  · exact Or.inl (by simp [analyze_contract_text, h, Json.isStr])
  · rw [Bool.not_eq_true] at h
    cases outcome with
    | apiError e => exact Or.inl (by simp [analyze_contract_text, h, Json.isStr])
    | otherError e => exact Or.inl (by simp [analyze_contract_text, h, Json.isStr])
    | reply content =>
      cases hp : parse content with
      | none => exact Or.inl (by simp [analyze_contract_text, h, hp, Json.isStr])
      | some j =>
        cases j with
        | obj fields =>
          exact Or.inr ⟨content, fields, rfl, hp,
            by simp [analyze_contract_text, h, hp]⟩
        | null => exact Or.inl (by simp [analyze_contract_text, h, hp, Json.isStr])
        | bool b => exact Or.inl (by simp [analyze_contract_text, h, hp, Json.isStr])
        | num n => exact Or.inl (by simp [analyze_contract_text, h, hp, Json.isStr])
        | str s => exact Or.inl (by simp [analyze_contract_text, h, hp, Json.isStr])
        | arr items => exact Or.inl (by simp [analyze_contract_text, h, hp, Json.isStr])

/-! ## Claims about `extract_text_from_pdf` -/

/-- C7: on every byte sequence that PyPDF2 cannot parse as a valid PDF
(empty, truncated, corrupt, encrypted, random bytes — any input on which
the reader or the per-page extraction raises), `extract_text_from_pdf`
returns the empty string; being a total function of the modelled document,
it never propagates the exception to its caller. -/
theorem extract_invalid_pdf : extract_text_from_pdf .parseFail = "" :=
  rfl

/-- C8: on a valid document, `extract_text_from_pdf` returns the
concatenation of the per-page texts in page order, where a page whose
`extract_text()` yields `None` contributes the empty string. -/
theorem extract_concat_pages (pages : List (Option String)) :
    extract_text_from_pdf (.ok pages)
      = String.join (pages.map (fun p => p.getD "")) := by
  simp [extract_text_from_pdf, String.join, List.foldl_map]

/-! ## Claims about `analyze_contract_endpoint` -/

/-- C9: the endpoint's checks, applied in the source's order: a filename
failing the (case-insensitive) `.pdf` check is rejected 400 "Invalid file
type…"; a passing filename with a content type other than
`application/pdf` is rejected 400 "Invalid file content type…"; past both
checks, an upload whose extraction yields no text (empty or
whitespace-only) is rejected 422; and an upload with extractable text
whose LLM reply decodes to `{"simplified_contract": s, "cons": [c]}`
yields the 200 body `{original_filename, simplified_contract := s,
cons := [c]}`. -/
theorem endpoint_status_matrix (env : AnalyzeEnv) (file : UploadFile) :
    (valid_filename file.filename = false →
      analyze_contract_endpoint env file = .httpError 400 invalidFileTypeMsg) ∧
    (valid_filename file.filename = true → file.content_type ≠ "application/pdf" →
      analyze_contract_endpoint env file = .httpError 400 invalidContentTypeMsg) ∧
    (valid_filename file.filename = true → file.content_type = "application/pdf" →
      env.saveError = none → pyBlank (extract_text_from_pdf file.doc) = true →
      analyze_contract_endpoint env file = .httpError 422 noTextMsg) ∧
    (∀ content s c, valid_filename file.filename = true →
      file.content_type = "application/pdf" → env.saveError = none →
      pyBlank (extract_text_from_pdf file.doc) = false →
      env.outcome = .reply content →
      env.parse content = some (.obj [("simplified_contract", .str s), ("cons", .arr [.str c])]) →
      analyze_contract_endpoint env file = .ok file.filename (.str s) [c]) := by
  refine ⟨?_, ?_, ?_, ?_⟩
  · intro h
    simp [analyze_contract_endpoint, h]
  · intro h hct
    simp [analyze_contract_endpoint, h, hct]
  · intro h hct hse hb
    simp [analyze_contract_endpoint, h, hct, hse, hb]
  · intro content s c h hct hse hb hout hparse
    simp [analyze_contract_endpoint, h, hct, hse, hb, hout, hparse,
      analyze_contract_text, jsonGet, List.lookup, validateCons, asStrListJ, asStrList,
      jsonIsNone, consIsNone]

/-- The `json.loads` oracle used by the endpoint witnesses. -/
def wParse : String → Option Json := fun content =>
  if content = "reply-content"
  then some (.obj [("simplified_contract", .str "X"), ("cons", .arr [.str "Y"])])
  else none

def wEnv : AnalyzeEnv :=
  ⟨wParse, .reply "reply-content", none⟩

def wFileBadName : UploadFile :=
  ⟨"contract.txt".toList, "application/pdf", .ok [some "body"]⟩

def wFileBadType : UploadFile :=
  ⟨"contract.pdf".toList, "text/plain", .ok [some "body"]⟩

def wFileNoText : UploadFile :=
  ⟨"contract.pdf".toList, "application/pdf", .parseFail⟩

def wFileGood : UploadFile :=
  ⟨"contract.pdf".toList, "application/pdf", .ok [some "body"]⟩

theorem endpoint_status_matrix_witness :
    analyze_contract_endpoint wEnv wFileBadName = .httpError 400 invalidFileTypeMsg ∧
    analyze_contract_endpoint wEnv wFileBadType = .httpError 400 invalidContentTypeMsg ∧
    analyze_contract_endpoint wEnv wFileNoText = .httpError 422 noTextMsg ∧
    analyze_contract_endpoint wEnv wFileGood = .ok wFileGood.filename (.str "X") ["Y"] :=
  ⟨(endpoint_status_matrix wEnv wFileBadName).1 (by decide),
   (endpoint_status_matrix wEnv wFileBadType).2.1 (by decide) (by decide),
   (endpoint_status_matrix wEnv wFileNoText).2.2.1 (by decide) rfl rfl (by decide),
   (endpoint_status_matrix wEnv wFileGood).2.2.2 "reply-content" "X" "Y"
     (by decide) rfl rfl (by decide) rfl rfl⟩

/-- C10: the filename check lowercases the name before testing the `.pdf`
suffix, so a filename whose extension is any letter-case variant of
`.pdf` passes the file-type check and the endpoint never answers it with
the 400 "Invalid file type…" rejection. -/
theorem endpoint_case_insensitive_pdf (env : AnalyzeEnv) (file : UploadFile)
    (stem : List Char) (p d f : Char)
    (hp : p = 'p' ∨ p = 'P') (hd : d = 'd' ∨ d = 'D') (hf : f = 'f' ∨ f = 'F')
    (hname : file.filename = stem ++ ['.', p, d, f]) :
    valid_filename file.filename = true ∧
    analyze_contract_endpoint env file ≠ .httpError 400 invalidFileTypeMsg := by
  have hvalid : valid_filename file.filename = true := by
    rw [hname]
    unfold valid_filename
    rw [List.map_append]
    have hext : List.map Char.toLower ['.', p, d, f] = ['.', 'p', 'd', 'f'] := by
      rcases hp with rfl | rfl <;> rcases hd with rfl | rfl <;> rcases hf with rfl | rfl <;> decide
    have hlit : ".pdf".toList = ['.', 'p', 'd', 'f'] := by decide
    rw [hext, List.isSuffixOf_iff_suffix, hlit]
    exact List.suffix_append _ _
  refine ⟨hvalid, ?_⟩
  unfold analyze_contract_endpoint
  rw [hvalid]
  by_cases hct : file.content_type == "application/pdf"
  · rw [hct]
    cases hse : env.saveError with
    | some e =>
      simp [invalidFileTypeMsg]
    | none =>
      by_cases hb : pyBlank (extract_text_from_pdf file.doc) = true
      · simp [hb, noTextMsg, invalidFileTypeMsg]
      · rw [Bool.not_eq_true] at hb
        simp [hb, consIsNone]
  · rw [Bool.not_eq_true] at hct
    rw [hct]
    simp [invalidContentTypeMsg, invalidFileTypeMsg]

def wFileUpper : UploadFile :=
  ⟨"contract.PDF".toList, "application/pdf", .ok [some "body"]⟩

theorem endpoint_case_insensitive_pdf_witness :
    valid_filename wFileUpper.filename = true ∧
    analyze_contract_endpoint wEnv wFileUpper ≠ .httpError 400 invalidFileTypeMsg :=
  endpoint_case_insensitive_pdf wEnv wFileUpper "contract".toList 'P' 'D' 'F'
    (Or.inr rfl) (Or.inr rfl) (Or.inr rfl) (by decide)

end Agrello
